import Mathlib

/-!
Verification of the OrcaZap conversation lifecycle engine against its
natural-language specification.

The definitions below are a shallow embedding of the Python source:
  * `src/app/domain/state_machine.py`  (conversation state machine)
  * `src/app/domain/pricing.py`        (pricing engine)
  * `src/app/domain/freight.py`        (freight engine)
  * `src/app/domain/quote.py`          (quote generation / approval policy)
  * `src/app/domain/parsing.py`        (message parser)
  * `src/app/worker/handlers.py`       (inbound event processor)

Conventions used throughout the embedding:
  * Python `Decimal` values are modelled as `ℚ` (exact decimal arithmetic is a
    subring of `ℚ`, and every operation the source performs on `Decimal`s -
    addition, subtraction, multiplication, comparison - is exact).
  * Python `float(x)` conversions are modelled as the identity on the rational
    value paired with a representation tag (`NumRepr.binaryFloat`), since the
    claims concern which representation carries each value.
  * Fallible code (`raise`) is modelled with `Except`.
  * Database rows are modelled as records in explicit lists; queries become
    `List.find?` / `List.filter` over those lists.
-/

set_option maxHeartbeats 2000000

deriving instance DecidableEq for Except

namespace OrcaZap

/-! ### Conversation state machine (`src/app/domain/state_machine.py`) -/

/-- Conversation states, from `ConversationState` in `src/app/db/models.py`. -/
inductive ConversationState where
  | INBOUND
  | CAPTURE_MIN
  | QUOTE_READY
  | QUOTE_SENT
  | WAITING_REPLY
  | HUMAN_APPROVAL
  | WON
  | LOST
deriving DecidableEq, Repr, Fintype

/-- State machine events, from `Event` in `state_machine.py`. -/
inductive Event where
  | first_message_received
  | minimal_data_received
  | approval_required
  | quote_approved
  | quote_auto_ok
  | user_replied
  | schedule_confirmed
  | user_declined
  | window_expired
  | admin_approved
  | admin_rejected
deriving DecidableEq, Repr, Fintype

/-- The data carried by the `StateMachineError` raised on an invalid
transition: the attempted event and the list of valid events from the current
state (the source interpolates both into the exception message). -/
structure StateMachineError where
  event : Event
  valid_events : List Event
deriving DecidableEq, Repr

/-- Table `VALID_TRANSITIONS` from `state_machine.py`, in source order. -/
def VALID_TRANSITIONS : List ((ConversationState × Event) × ConversationState) :=
  [ ((.INBOUND, .first_message_received), .CAPTURE_MIN),
    ((.CAPTURE_MIN, .minimal_data_received), .QUOTE_READY),
    ((.QUOTE_READY, .approval_required), .HUMAN_APPROVAL),
    ((.QUOTE_READY, .quote_approved), .QUOTE_SENT),
    ((.QUOTE_READY, .quote_auto_ok), .QUOTE_SENT),
    ((.QUOTE_SENT, .user_replied), .WAITING_REPLY),
    ((.WAITING_REPLY, .schedule_confirmed), .WON),
    ((.WAITING_REPLY, .user_declined), .LOST),
    ((.WAITING_REPLY, .window_expired), .LOST),
    ((.HUMAN_APPROVAL, .admin_approved), .QUOTE_SENT),
    ((.HUMAN_APPROVAL, .admin_rejected), .LOST),
    ((.QUOTE_SENT, .window_expired), .LOST) ]

/-- Function `can_transition` from `state_machine.py`: membership of `(state, event)`
in the transition table. -/
def can_transition (s : ConversationState) (e : Event) : Bool :=
  (VALID_TRANSITIONS.find? (fun p => p.1 == (s, e))).isSome

/-- The list comprehension inside `get_next_state` building the diagnostics:
`[k[1] for k in VALID_TRANSITIONS.keys() if k[0] == current_state]`. -/
def valid_events_from (s : ConversationState) : List Event :=
  (VALID_TRANSITIONS.filter (fun p => p.1.1 == s)).map (fun p => p.1.2)

/-- Function `get_next_state` from `state_machine.py`: raise `StateMachineError` when
the pair is absent from the table, otherwise return the table entry. -/
def get_next_state (s : ConversationState) (e : Event) :
    Except StateMachineError ConversationState :=
  if can_transition s e then
    match VALID_TRANSITIONS.find? (fun p => p.1 == (s, e)) with
    | some p => .ok p.2
    | none => .error ⟨e, valid_events_from s⟩
  else
    .error ⟨e, valid_events_from s⟩

/-- Function `transition` from `state_machine.py`.  The optional `on_transition`
post-hook only runs for its side effects after a successful transition and
never changes the returned state, so it is dropped from the pure embedding. -/
def transition (s : ConversationState) (e : Event) :
    Except StateMachineError ConversationState :=
  get_next_state s e

/-! ### Pricing engine (`src/app/domain/pricing.py`)

Monetary values are `ℚ`; `Decimal` arithmetic in the source is exact, so every
`Decimal` operation is mirrored by the corresponding `ℚ` operation.  The
`float(...)` conversions the source performs when building its returned
dictionary are modelled by `pyFloat`, which keeps the rational value and tags
it with the representation it now lives in. -/

/-- Representation of a numeric value in the Python source: an exact
`decimal.Decimal`, or a binary `float`. -/
inductive NumRepr where
  | decimalExact
  | binaryFloat
deriving DecidableEq, Repr

/-- A numeric value together with the representation carrying it. -/
structure TaggedNum where
  val : ℚ
  rep : NumRepr
deriving DecidableEq, Repr

/-- Conversion `float(x)` on an exactly-known value: same value, binary-float
representation. -/
def pyFloat (q : ℚ) : TaggedNum := ⟨q, .binaryFloat⟩

/-- Python `str.upper()`, modelled characterwise for the ASCII alphabet (the
only case the keyword comparisons of the source exercise in the properties
proved here). -/
def pyUpper (s : String) : String := String.mk (s.toList.map Char.toUpper)

/-- One `VolumeDiscount` row as consumed by the discount loops (the tenant and
item scoping has already been applied by the query). -/
structure VolumeDiscount where
  min_quantity : ℚ
  discount_pct : ℚ
deriving DecidableEq, Repr

/-- The `for discount in ...: if quantity >= min_quantity: best = pct; break`
loop from `calculate_item_price`: the percentage of the first discount in the
(descending `min_quantity`-ordered) list whose minimum is at most the
quantity, else 0. -/
def bestMatchPct : List VolumeDiscount → ℚ → ℚ
  | [], _ => 0
  | d :: rest, quantity =>
    if d.min_quantity ≤ quantity then d.discount_pct else bestMatchPct rest quantity

/-- The discount percentage `calculate_item_price` ends up with: the
item-specific loop result, falling through to the global loop whenever that
result `== 0` (lines 79-90 of `pricing.py`). -/
def selectedPct (quantity : ℚ) (item_discounts global_discounts : List VolumeDiscount) : ℚ :=
  if bestMatchPct item_discounts quantity = 0 then bestMatchPct global_discounts quantity
  else bestMatchPct item_discounts quantity

/-- Lines 93-95 of `pricing.py`: a discount is applied only when the selected
percentage is `> 0`, and then `unit_price = base_price - base_price * pct`. -/
def unitPriceFrom (base_price pct : ℚ) : ℚ :=
  if 0 < pct then base_price - base_price * pct else base_price

/-- The pure core of `calculate_item_price` (lines 58-99 of `pricing.py`),
after the two discount queries have produced their descending-ordered lists:
`(unit_price, total_price)` with `total_price = unit_price * quantity`. -/
def calculate_item_price_core (base_price quantity : ℚ)
    (item_discounts global_discounts : List VolumeDiscount) : ℚ × ℚ :=
  (unitPriceFrom base_price (selectedPct quantity item_discounts global_discounts),
    unitPriceFrom base_price (selectedPct quantity item_discounts global_discounts) * quantity)

/-- The first discount in the list whose minimum is at most the quantity. -/
def firstMatching (quantity : ℚ) : List VolumeDiscount → Option VolumeDiscount
  | [] => none
  | d :: rest => if d.min_quantity ≤ quantity then some d else firstMatching quantity rest

/-- The discount-selection rule exactly as claim C6 words it: the first
item-specific discount whose minimum is at most the quantity; global
discounts consulted only when no item-specific discount matched;
`unit_price = base_price * (1 - discount_pct)`. -/
def price_item_claim_spec (base_price quantity : ℚ)
    (item_discounts global_discounts : List VolumeDiscount) : ℚ × ℚ :=
  let pct :=
    match firstMatching quantity item_discounts with
    | some d => d.discount_pct
    | none =>
      match firstMatching quantity global_discounts with
      | some d => d.discount_pct
      | none => 0
  (base_price * (1 - pct), base_price * (1 - pct) * quantity)

/-- One `PricingRule` row (at most one per tenant); thresholds are nullable
columns. -/
structure PricingRule where
  pix_discount_pct : ℚ
  margin_min_pct : ℚ
  approval_threshold_total : Option ℚ
  approval_threshold_margin : Option ℚ
deriving DecidableEq, Repr

/-- One `TenantItem` row: the tenant's base price for an item. -/
structure TenantItem where
  item_id : Nat
  price_base : ℚ
  is_active : Bool
deriving DecidableEq, Repr

/-- One `VolumeDiscount` row as stored: `item_id` is null for a global
discount. -/
structure VolumeDiscountRow where
  item_id : Option Nat
  min_quantity : ℚ
  discount_pct : ℚ
deriving DecidableEq, Repr

/-- The tenant-scoped pricing tables the pricing engine reads. -/
structure PricingDb where
  tenantItems : List TenantItem
  volumeDiscounts : List VolumeDiscountRow
  pricingRule : Option PricingRule
deriving DecidableEq, Repr

/-- Insert into a list kept in descending `min_quantity` order
(`order_by(VolumeDiscount.min_quantity.desc())` in the source queries). -/
def insertByMinDesc (d : VolumeDiscount) : List VolumeDiscount → List VolumeDiscount
  | [] => [d]
  | h :: t => if h.min_quantity < d.min_quantity then d :: h :: t else h :: insertByMinDesc d t

/-- Sort descending by `min_quantity` (the order the discount queries
return). -/
def sortByMinDesc (l : List VolumeDiscount) : List VolumeDiscount :=
  l.foldr insertByMinDesc []

/-- The item-specific discount query of `calculate_item_price`:
`filter_by(tenant_id, item_id).order_by(min_quantity.desc())`. -/
def item_discounts_for (db : PricingDb) (item_id : Nat) : List VolumeDiscount :=
  sortByMinDesc ((db.volumeDiscounts.filter (fun r => r.item_id = some item_id)).map
    (fun r => ⟨r.min_quantity, r.discount_pct⟩))

/-- The global discount query of `calculate_item_price`:
`filter_by(tenant_id, item_id=None).order_by(min_quantity.desc())`. -/
def global_discounts_for (db : PricingDb) : List VolumeDiscount :=
  sortByMinDesc ((db.volumeDiscounts.filter (fun r => r.item_id = none)).map
    (fun r => ⟨r.min_quantity, r.discount_pct⟩))

/-- Exception `PricingError` from `pricing.py`. -/
inductive PricingError where
  | itemNotPriced (item_id : Nat)
  | pricingRulesNotFound
deriving DecidableEq, Repr

/-- Function `calculate_item_price` from `pricing.py`: raise `PricingError` when the
tenant has no active `TenantItem` row for the item, else the discounted
`(unit_price, total_price)`. -/
def calculate_item_price (db : PricingDb) (item_id : Nat) (quantity : ℚ) :
    Except PricingError (ℚ × ℚ) :=
  match db.tenantItems.find? (fun t => t.item_id == item_id && t.is_active) with
  | none => .error (.itemNotPriced item_id)
  | some t =>
    .ok (calculate_item_price_core t.price_base quantity
          (item_discounts_for db item_id) (global_discounts_for db))

/-- One entry of the `items` list in `calculate_quote_totals`' returned
dictionary; every numeric field goes through `float(...)` in the source. -/
structure QuoteItemOut where
  item_id : Nat
  quantity : TaggedNum
  unit_price : TaggedNum
  total : TaggedNum
deriving DecidableEq, Repr

/-- The dictionary returned by `calculate_quote_totals`; every monetary value
goes through `float(...)` in the source (lines 154-157 and 177-181 of
`pricing.py`). -/
structure QuoteTotals where
  items : List QuoteItemOut
  subtotal : TaggedNum
  discount_pct : TaggedNum
  discount_amount : TaggedNum
  total : TaggedNum
  margin_pct : TaggedNum
deriving DecidableEq, Repr

/-- The `for item_data in items` loop of `calculate_quote_totals`: price each
item, building the per-item output entries and the running `Decimal`
subtotal.  (The source accumulates left-to-right; addition on `ℚ` is
associative and commutative, so the right fold used here yields the same
subtotal.) -/
def quoteItemsLoop (db : PricingDb) :
    List (Nat × ℚ) → Except PricingError (List QuoteItemOut × ℚ)
  | [] => .ok ([], 0)
  | (item_id, quantity) :: rest =>
    match calculate_item_price db item_id quantity with
    | .error e => .error e
    | .ok (unit_price, item_total) =>
      match quoteItemsLoop db rest with
      | .error e => .error e
      | .ok (outs, sub) =>
        .ok (⟨item_id, pyFloat quantity, pyFloat unit_price, pyFloat item_total⟩ :: outs,
          item_total + sub)

/-- Function `calculate_quote_totals` from `pricing.py`: raise when the tenant has no
`PricingRule` row; price the items; apply the PIX discount to the subtotal
exactly when `payment_method.upper() == "PIX"`; report the configured
minimum margin as the margin; return everything converted to `float`. -/
def calculate_quote_totals (db : PricingDb) (items : List (Nat × ℚ))
    (payment_method : String) : Except PricingError QuoteTotals :=
  match db.pricingRule with
  | none => .error .pricingRulesNotFound
  | some rules =>
    match quoteItemsLoop db items with
    | .error e => .error e
    | .ok (outs, subtotal) =>
      let discount_pct : ℚ :=
        if pyUpper payment_method = "PIX" then rules.pix_discount_pct else 0
      let discount_amount := subtotal * discount_pct
      let total := subtotal - discount_amount
      .ok { items := outs, subtotal := pyFloat subtotal,
            discount_pct := pyFloat discount_pct,
            discount_amount := pyFloat discount_amount, total := pyFloat total,
            margin_pct := pyFloat rules.margin_min_pct }

/-- The pricing tables of the spec's worked example: one item (id 1) priced
at 45.00 with no volume discounts, PIX discount 5%, minimum margin 30%. -/
def c8_example_db : PricingDb :=
  ⟨[⟨1, 45, true⟩], [], some ⟨1/20, 3/10, none, none⟩⟩

/-- The dictionary `calculate_quote_totals` returns on the worked example:
subtotal 450.00, discount 22.50, total 427.50, all carried as floats. -/
def c8_example_result : QuoteTotals :=
  ⟨[⟨1, pyFloat 10, pyFloat 45, pyFloat 450⟩], pyFloat 450, pyFloat (1/20),
    pyFloat (45/2), pyFloat (855/2), pyFloat (3/10)⟩

/-- Claim C5 exactly as stated, at one input: every monetary value of the
computation's returned result is carried in exact decimal representation. -/
def allMonetaryExact (r : QuoteTotals) : Prop :=
  r.subtotal.rep = .decimalExact ∧ r.discount_pct.rep = .decimalExact ∧
    r.discount_amount.rep = .decimalExact ∧ r.total.rep = .decimalExact ∧
    r.margin_pct.rep = .decimalExact ∧
    ∀ it ∈ r.items, it.unit_price.rep = .decimalExact ∧ it.total.rep = .decimalExact

/-! ### Freight engine (`src/app/domain/freight.py`) -/

/-- Lexicographic string order on code points - how Python compares the
normalized CEP strings in `cep_in_range` (`start <= cep <= end` on `str`). -/
def lexLe : List Char → List Char → Bool
  | [], _ => true
  | _ :: _, [] => false
  | a :: as, b :: bs =>
    if a.toNat < b.toNat then true
    else if b.toNat < a.toNat then false
    else lexLe as bs

/-- Python `a <= b` on strings. -/
def strLe (a b : String) : Bool := lexLe a.toList b.toList

/-- Function `normalize_cep` from `freight.py`: keep only the digit characters. -/
def normalize_cep (cep : String) : String :=
  String.mk (cep.toList.filter Char.isDigit)

/-- Function `cep_in_range` from `freight.py`: normalize all three strings and compare
lexicographically. -/
def cep_in_range (cep range_start range_stop : String) : Bool :=
  strLe (normalize_cep range_start) (normalize_cep cep) &&
    strLe (normalize_cep cep) (normalize_cep range_stop)

/-- One `FreightRule` row: keyed by a neighborhood (`bairro`) name or by a
CEP range, both nullable. -/
structure FreightRule where
  bairro : Option String
  cep_range_start : Option String
  cep_range_end : Option String
  base_freight : ℚ
  per_kg_additional : Option ℚ
deriving DecidableEq, Repr

/-- Exception `FreightError` from `freight.py` ("No freight rule found ..."). -/
inductive FreightError where
  | noRule (location : String)
deriving DecidableEq, Repr

/-- Python truthiness of an optional string (`None` and `""` are falsy). -/
def strTruthy : Option String → Bool
  | none => false
  | some s => !s.isEmpty

/-- The first query of `calculate_freight`:
`filter_by(tenant_id, bairro=cep_or_bairro).first()`. -/
def findBairroRule (rules : List FreightRule) (loc : String) : Option FreightRule :=
  rules.find? (fun r => r.bairro == some loc)

/-- The CEP-range loop of `calculate_freight`: over the rules whose
`cep_range_start` is not null, the first rule whose (truthy) range contains
the normalized CEP. -/
def findCepRule (rules : List FreightRule) (cepN : String) : Option FreightRule :=
  (rules.filter (fun r => r.cep_range_start.isSome)).find? (fun r =>
    strTruthy r.cep_range_start && strTruthy r.cep_range_end &&
      match r.cep_range_start, r.cep_range_end with
      | some s, some e => cep_in_range cepN s e
      | _, _ => false)

/-- Lines 106-114 of `freight.py`: base freight, plus the per-kg additional
cost when both a per-kg rate and a weight are present and truthy (nonzero). -/
def freight_cost (rule : FreightRule) (total_weight_kg : Option ℚ) : ℚ :=
  match rule.per_kg_additional, total_weight_kg with
  | some pk, some w =>
    if pk ≠ 0 ∧ w ≠ 0 then rule.base_freight + pk * w else rule.base_freight
  | _, _ => rule.base_freight

/-- Does the location contain any digit
(`any(c.isdigit() for c in cep_or_bairro)`). -/
def hasDigit (s : String) : Bool := s.toList.any Char.isDigit

/-- Function `calculate_freight` from `freight.py`: resolve by exact bairro match
first; only when that fails and the input contains a digit, normalize and
scan the CEP-range rules; raise `FreightError` when nothing matches. -/
def calculate_freight (rules : List FreightRule) (cep_or_bairro : String)
    (total_weight_kg : Option ℚ) : Except FreightError ℚ :=
  match
    match findBairroRule rules cep_or_bairro with
    | some r => some r
    | none =>
      if hasDigit cep_or_bairro then findCepRule rules (normalize_cep cep_or_bairro)
      else none
  with
  | none => .error (.noRule cep_or_bairro)
  | some r => .ok (freight_cost r total_weight_kg)

/-- A rule whose bairro name is the literal query string of the example. -/
def c7_bairro_rule : FreightRule := ⟨some "01310-100", none, none, 10, none⟩

/-- The example's CEP-range rule, "01310-000".."01310-999", base freight 20. -/
def c7_range_rule : FreightRule :=
  ⟨none, some "01310-000", some "01310-999", 20, none⟩

/-! ### Quote generation and approval checking (`src/app/domain/quote.py`) -/

/-- Exception `QuoteGenerationError` from `quote.py`; the only `raise` in
`generate_quote` wraps a `PricingError`. -/
inductive QuoteGenerationError where
  | pricingFailed (e : PricingError)
deriving DecidableEq, Repr

/-- The individual reason strings `check_approval_required` (and the
freight-failure branch of `generate_quote`, and the approval-record text the
worker handler assembles) append to their `reasons` lists, modelled
structurally.  `aiUsed` is "IA utilizada para parsing (requer supervisão)"
and `defaultRequired` is the handler's fallback text "Aprovação requerida". -/
inductive ApprovalReason where
  | pricingRulesNotFound
  | unknownSkus (skus : List String)
  | totalExceedsThreshold
  | marginBelowThreshold
  | freightFailed (e : FreightError)
  | aiUsed
  | defaultRequired
deriving DecidableEq, Repr

/-- Function `check_approval_required` from `quote.py`: missing pricing rule is itself
a forced-approval condition; otherwise accumulate the unknown-SKU, total-
threshold and margin-threshold reasons (each threshold is consulted only
when the nullable column is set and truthy, i.e. nonzero). -/
def check_approval_required (rule : Option PricingRule) (total margin_pct : ℚ)
    (unknown_skus : List String) : Bool × List ApprovalReason :=
  match rule with
  | none => (true, [.pricingRulesNotFound])
  | some rules =>
    let reasons : List ApprovalReason :=
      (if unknown_skus ≠ [] then [ApprovalReason.unknownSkus unknown_skus] else []) ++
      (match rules.approval_threshold_total with
        | some t => if t ≠ 0 ∧ t < total then [ApprovalReason.totalExceedsThreshold] else []
        | none => []) ++
      (match rules.approval_threshold_margin with
        | some t => if t ≠ 0 ∧ margin_pct < t then [ApprovalReason.marginBelowThreshold] else []
        | none => [])
    if reasons ≠ [] then (true, reasons) else (false, [])

/-- The `Quote` row `generate_quote` creates: the pricing snapshot re-read
from the float-valued pricing dictionary (`Decimal(str(...))`, value
preserved for the decimally-representable values at hand), the resolved
freight, and the float-valued `payload_json["freight"]`. -/
structure QuoteDraft where
  subtotal : ℚ
  freight : ℚ
  discount_pct : ℚ
  total : ℚ
  margin_pct : ℚ
  items : List QuoteItemOut
  payload_freight : TaggedNum
deriving DecidableEq, Repr

/-- The `Approval` row `generate_quote` creates when approval is needed. -/
structure ApprovalRow where
  reason : List ApprovalReason
deriving DecidableEq, Repr

/-- Function `generate_quote` from `quote.py`: pricing failure re-raises as
`QuoteGenerationError`; freight failure degrades to freight 0 plus forced
approval with the freight-failure reason; otherwise the approval policy runs
on `total + freight`; the Quote is created either way and an Approval row
accompanies it exactly when approval is needed. -/
def generate_quote (pdb : PricingDb) (frules : List FreightRule)
    (items : List (Nat × ℚ)) (cep_or_bairro : String) (payment_method : String) :
    Except QuoteGenerationError (QuoteDraft × Bool × Option ApprovalRow) :=
  match calculate_quote_totals pdb items payment_method with
  | .error e => .error (.pricingFailed e)
  | .ok pricing =>
    let fr := calculate_freight frules cep_or_bairro none
    let freight : ℚ := match fr with | .error _ => 0 | .ok f => f
    let na : Bool × List ApprovalReason :=
      match fr with
      | .error e => (true, [.freightFailed e])
      | .ok f =>
        check_approval_required pdb.pricingRule (pricing.total.val + f)
          pricing.margin_pct.val []
    .ok ({ subtotal := pricing.subtotal.val, freight := freight,
           discount_pct := pricing.discount_pct.val,
           total := pricing.total.val + freight,
           margin_pct := pricing.margin_pct.val, items := pricing.items,
           payload_freight := pyFloat freight },
         na.1,
         if na.1 then some ⟨na.2⟩ else none)

/-- A tenant catalog with a priced item but no `PricingRule` row. -/
def c4_no_rule_db : PricingDb := ⟨[⟨1, 45, true⟩], [], none⟩

/-- Claim C4 as stated, at one input: generating the quote succeeds and
forces approval. -/
def c4_claim_at (pdb : PricingDb) (frules : List FreightRule)
    (items : List (Nat × ℚ)) (cep pm : String) : Prop :=
  ∃ out, generate_quote pdb frules items cep pm = .ok out ∧ out.2.1 = true

/-- Replace only the two approval-threshold columns of the tenant's pricing
rule. -/
def setThresholds (pdb : PricingDb) (t m : Option ℚ) : PricingDb :=
  { pdb with pricingRule := pdb.pricingRule.map (fun r =>
      { r with approval_threshold_total := t, approval_threshold_margin := m }) }

/-! ### Message parser (`src/app/domain/parsing.py`)

The parser works on the raw message text (CEP and item patterns) and on
`message_text.strip().upper()` (keyword matching).  Python's `re` engine is
embedded as explicit character-list scanners for the two concrete patterns
the source uses; `str.upper()` is modelled for ASCII (`pyUpper`).  The
AI-assisted branch's external pieces (LLM call, markdown stripping,
`json.loads`) are modelled by the `aiDecoded : Option Json` argument: `none`
covers `use_ai=False`, a provider failure and a JSON decode failure - all of
which fall through to the deterministic extraction - while `some j` is a
successfully decoded response, on which the source only checks
`isinstance(ai_data, dict)` before returning it as-is. -/

/-- A decoded JSON value (the shape `json.loads` produces). -/
inductive Json where
  | null
  | bool (b : Bool)
  | str (s : String)
  | num (q : ℚ)
  | arr (xs : List Json)
  | obj (fields : List (String × Json))

/-- Python `needle in hay` on strings (character lists). -/
def listContainsSub (needle : List Char) : List Char → Bool
  | [] => needle.isEmpty
  | c :: rest => needle.isPrefixOf (c :: rest) || listContainsSub needle rest

/-- Python `text.split(kw, 1)[1]`: the remainder after the first occurrence
of `kw`, or `none` when `kw` does not occur. -/
def afterFirst (needle : List Char) : List Char → Option (List Char)
  | [] => if needle.isEmpty then some [] else none
  | c :: rest =>
    if needle.isPrefixOf (c :: rest) then some ((c :: rest).drop needle.length)
    else afterFirst needle rest

/-- ASCII whitespace, the cases `\s` and `str.strip()` exercise here. -/
def isWs (c : Char) : Bool := c = ' ' || c = '\t' || c = '\n' || c = '\r'

/-- Python `split("\n")[0]`. -/
def firstLineOf (l : List Char) : List Char := l.takeWhile (fun c => c ≠ '\n')

/-- Python `str.strip()`. -/
def pyStrip (l : List Char) : List Char :=
  ((l.dropWhile isWs).reverse.dropWhile isWs).reverse

/-- Regex `\w` (ASCII range, as the patterns here only meet ASCII). -/
def isWordChar (c : Char) : Bool := c.isAlphanum || c = '_'

/-- Word boundary `\b` at the end of a match: next char absent or non-word. -/
def boundaryOk : List Char → Bool
  | [] => true
  | c :: _ => !isWordChar c

/-- Try the CEP pattern `\d{5}[- ]?\d{3}\b` anchored at the head of the list
(the separator branch is preferred, as the regex engine tries the greedy
optional group first); returns the matched characters. -/
def cepMatchAt (l : List Char) : Option (List Char) :=
  let d5 := l.take 5
  if d5.length = 5 ∧ d5.all Char.isDigit then
    let rest5 := l.drop 5
    match rest5 with
    | c :: rest6 =>
      if (c = '-' ∨ c = ' ') ∧ (rest6.take 3).length = 3 ∧
          (rest6.take 3).all Char.isDigit ∧ boundaryOk (rest6.drop 3) then
        some (d5 ++ c :: rest6.take 3)
      else if (rest5.take 3).length = 3 ∧ (rest5.take 3).all Char.isDigit ∧
          boundaryOk (rest5.drop 3) then
        some (d5 ++ rest5.take 3)
      else none
    | [] => none
  else none

/-- Model of `re.search` for the CEP pattern: leftmost match whose start sits at a
word boundary (`prevW` records whether the previous character was a word
character). -/
def cepSearchAux (prevW : Bool) : List Char → Option (List Char)
  | [] => none
  | c :: rest =>
    match if prevW then none else cepMatchAt (c :: rest) with
    | some m => some m
    | none => cepSearchAux (isWordChar c) rest

/-- Lines 52-57 of `parsing.py`: search the raw text for a CEP, replace a
space separator by a dash, and keep it only when it has exactly 8 digits. -/
def extract_cep (message_text : String) : Option String :=
  match cepSearchAux false message_text.toList with
  | some m =>
    let norm := m.map (fun c => if c = ' ' then '-' else c)
    if (norm.filter (fun c => c ≠ '-')).length = 8 then some (String.mk norm) else none
  | none => none

/-- List `bairro_keywords` from `parsing.py`, in source order. -/
def bairro_keywords : List String := ["BAIRRO:", "BAIRRO", "LOCALIZAÇÃO:", "LOCALIZAÇÃO"]

/-- The bairro-keyword loop (lines 60-69): after the first keyword present in
the uppercased text, take the rest of that line, strip it, and keep it only
when nonempty - otherwise try the next keyword. -/
def extract_bairro_loop (text : List Char) : List String → Option String
  | [] => none
  | kw :: rest =>
    match afterFirst kw.toList text with
    | some tail =>
      let bairro := pyStrip (firstLineOf tail)
      if bairro ≠ [] then some (String.mk bairro) else extract_bairro_loop text rest
    | none => extract_bairro_loop text rest

/-- The payment-method keyword table (lines 72-81), in source order; the
first method with a keyword contained in the uppercased text wins. -/
def payment_method_of (text : List Char) : Option String :=
  if ["PIX"].any (fun kw => listContainsSub kw.toList text) then some "PIX"
  else if ["CARTÃO", "CARTAO", "CREDITO", "CRÉDITO", "DEBITO", "DÉBITO"].any
      (fun kw => listContainsSub kw.toList text) then some "Cartão"
  else if ["BOLETO"].any (fun kw => listContainsSub kw.toList text) then some "Boleto"
  else none

/-- The delivery-day keyword table (lines 84-93), in source order. -/
def delivery_primary (text : List Char) : Option String :=
  if ["QUANTO ANTES", "URGENTE", "IMEDIATO"].any (fun kw => listContainsSub kw.toList text)
    then some "o quanto antes"
  else if ["AMANHÃ", "AMANHA"].any (fun kw => listContainsSub kw.toList text)
    then some "Amanhã"
  else if ["HOJE"].any (fun kw => listContainsSub kw.toList text) then some "Hoje"
  else none

/-- The delivery fallback loop (lines 96-104): after an explicit delivery
keyword, the rest of the line, stripped - kept even when empty (the source
breaks unconditionally). -/
def delivery_fallback_loop (text : List Char) : List String → Option String
  | [] => none
  | kw :: rest =>
    match afterFirst kw.toList text with
    | some tail => some (String.mk (pyStrip (firstLineOf tail)))
    | none => delivery_fallback_loop text rest

/-- Lines 96-104 of `parsing.py` as a whole: the fallback only runs when the
text mentions ENTREGA or DELIVERY. -/
def delivery_fallback (text : List Char) : Option String :=
  if listContainsSub "ENTREGA".toList text || listContainsSub "DELIVERY".toList text then
    delivery_fallback_loop text ["ENTREGA:", "ENTREGA", "DELIVERY:"]
  else none

/-- One extracted order item. -/
structure ParsedItem where
  name : String
  quantity : ℚ
  unit : String
deriving DecidableEq, Repr

/-- Digit run to a number. -/
def digitsToNat (l : List Char) : Nat := l.foldl (fun acc c => acc * 10 + (c.toNat - 48)) 0

/-- Conversion `float(quantity_str.replace(",", "."))` on the regex captures: integer
part plus fractional part (exact, since the claims only consume the value;
the fraction-free case avoids a redundant `+ 0`). -/
def quantityToRat (intPart fracPart : List Char) : ℚ :=
  if fracPart.isEmpty then (digitsToNat intPart : ℚ)
  else (digitsToNat intPart : ℚ) + (digitsToNat fracPart : ℚ) / ((10 : ℚ) ^ fracPart.length)

/-- The item pattern `[-•]\s*([^:]+):\s*(\d+(?:[.,]\d+)?)\s*(\w+)?` matched
right after a bullet character: name up to the first colon (stripped), an
integer-with-optional-decimal quantity, an optional unit word (default
"un").  Returns the item and the remainder of the text after the match. -/
def itemMatchAfterBullet (l : List Char) : Option (ParsedItem × List Char) :=
  let l1 := l.dropWhile isWs
  let name := l1.takeWhile (fun c => c ≠ ':')
  if name.isEmpty then none
  else
    match l1.drop name.length with
    | ':' :: l2 =>
      let l3 := l2.dropWhile isWs
      let intPart := l3.takeWhile Char.isDigit
      if intPart.isEmpty then none
      else
        let l4 := l3.drop intPart.length
        let fracState : List Char × List Char :=
          match l4 with
          | c :: l4' =>
            if (c = '.' ∨ c = ',') ∧ ¬ (l4'.takeWhile Char.isDigit).isEmpty then
              (l4'.takeWhile Char.isDigit, l4'.drop (l4'.takeWhile Char.isDigit).length)
            else ([], l4)
          | [] => ([], [])
        let l6 := fracState.2.dropWhile isWs
        let unit := l6.takeWhile isWordChar
        some (⟨String.mk (pyStrip name), quantityToRat intPart fracState.1,
            if unit.isEmpty then "un" else String.mk unit⟩, l6.drop unit.length)
    | _ => none

/-- Model of `re.findall` of the item pattern plus the filtering loop of lines
112-130: scan for bullets, skip matches with an empty (stripped) name or a
non-positive quantity.  `fuel` bounds the recursion by the text length. -/
def scanItems : Nat → List Char → List ParsedItem
  | 0, _ => []
  | _, [] => []
  | fuel + 1, c :: rest =>
    if c = '-' ∨ c = '•' then
      match itemMatchAfterBullet rest with
      | some (item, rest') =>
        if item.name ≠ "" ∧ 0 < item.quantity then item :: scanItems fuel rest'
        else scanItems fuel rest'
      | none => scanItems fuel rest
    else scanItems fuel rest

/-- The full item extraction over the raw message text. -/
def extract_items (message_text : String) : List ParsedItem :=
  scanItems (message_text.toList.length + 1) message_text.toList

/-- Python truthiness of the optional extracted strings (`None` and `""` are
falsy). -/
def strOptTruthy : Option String → Bool
  | none => false
  | some s => !s.isEmpty

/-- The dictionary built at lines 200-205 of `parsing.py`. -/
def mkParsedJson (cep pm dd : String) (items : List ParsedItem) : Json :=
  .obj [("cep_or_bairro", .str cep), ("payment_method", .str pm),
    ("delivery_day", .str dd),
    ("items", .arr (items.map fun it =>
      .obj [("name", .str it.name), ("quantity", .num it.quantity),
        ("unit", .str it.unit)]))]

/-- Check `isinstance(ai_data, dict)`. -/
def isJsonObj : Json → Bool
  | .obj _ => true
  | _ => false

/-- Lines 49-69: the CEP pattern takes priority; the bairro keywords are only
tried when it does not match. -/
def extract_cep_or_bairro (message_text : String) (text : List Char) : Option String :=
  match extract_cep message_text with
  | some c => some c
  | none => extract_bairro_loop text bairro_keywords

/-- Lines 84-104: primary keyword table first, then the explicit-delivery
fallback. -/
def extract_delivery_day (text : List Char) : Option String :=
  match delivery_primary text with
  | some d => some d
  | none => delivery_fallback text

/-- Function `parse_data_capture_message` from `parsing.py`: deterministic extraction
of location (CEP first, then bairro keywords), payment method, delivery day
and items; when an AI response decoded to a dict, return it as-is tagged
requires-approval; otherwise return the extracted dictionary only when all
four fields are truthy, else `(None, False)`. -/
def parse_data_capture_message (message_text : String) (aiDecoded : Option Json) :
    Option Json × Bool :=
  let text := (pyUpper (String.mk (pyStrip message_text.toList))).toList
  let cep_or_bairro := extract_cep_or_bairro message_text text
  let payment_method := payment_method_of text
  let delivery_day := extract_delivery_day text
  let items := extract_items message_text
  let det : Option Json × Bool :=
    if strOptTruthy cep_or_bairro && strOptTruthy payment_method &&
        strOptTruthy delivery_day && !items.isEmpty then
      (some (mkParsedJson (cep_or_bairro.getD "") (payment_method.getD "")
        (delivery_day.getD "") items), false)
    else (none, false)
  match aiDecoded with
  | some j => if isJsonObj j then (some j, true) else det
  | none => det

/-- Key lookup in a decoded JSON object (`ai_data["k"]` / dict access). -/
def jsonGet (j : Json) (key : String) : Option Json :=
  match j with
  | .obj fields => (fields.find? (fun f => f.1 == key)).map (fun f => f.2)
  | _ => none

/-- Truthiness of a string-valued field of the parse result. -/
def jsonFieldTruthy (j : Json) (key : String) : Bool :=
  match jsonGet j key with
  | some (.str s) => !s.isEmpty
  | _ => false

/-- The parse result has a nonempty items list. -/
def jsonItemsNonempty (j : Json) : Bool :=
  match jsonGet j "items" with
  | some (.arr l) => !l.isEmpty
  | _ => false

/-- Claim C9's contract on a parse result: either "incomplete" (no data), or
location, payment method, delivery day and at least one item are all
present. -/
def parse_complete_claim (p : Option Json) : Prop :=
  match p with
  | none => True
  | some j => jsonFieldTruthy j "cep_or_bairro" ∧ jsonFieldTruthy j "payment_method"
      ∧ jsonFieldTruthy j "delivery_day" ∧ jsonItemsNonempty j

/-! ### Inbound event processor (`src/app/worker/handlers.py`)

`process_inbound_event` is embedded as a pure function from a committed
store, a job, the outcome the messaging gateway would produce for an
outbound send, and the decoded AI response, to the committed store after the
run, the list of texts that physically reached the gateway, and whether the
job raised (so the queue would retry it).  `db.rollback()` discards pending
changes and `db.commit()` makes them durable, so each path returns either
the input store or a committed successor.

The reachable behavior of the source is short.  Lines 67-82 are the two
idempotency skips; lines 84-90 raise `ValueError` when the tenant row is
missing.  Line 93 then evaluates `is_subscription_active(tenant)` - but that
name is never imported into `app/worker/handlers.py` (its only definition is
`app/core/stripe.py:133`, imported by `app/middleware/subscription_check.py`,
`app/routers/public.py` and `app/routers/tenant.py`, never by the worker),
so Python raises `NameError` there, the outer `except Exception`
(lines 539-546) rolls the unit of work back and re-raises, and the job is
left to the queue to retry.  Everything after line 93 - the subscription
skip, the channel check, the contact/conversation upsert, the
`conversation_id` stamp, and the whole state-machine driving with its sends
(prompt, clarification, catalog-not-found, approval acknowledgement, quote
message, quote-generation-failure text) - is unreachable.  The `send` and
`aiDecoded` parameters model the inputs those unreachable paths would
consume; no reachable path reads them, exactly as no run of the source
reaches a send or the parser. -/

/-- Enum `MessageDirection` from `src/app/db/models.py`. -/
inductive MessageDirection where
  | INBOUND
  | OUTBOUND
deriving DecidableEq, Repr

/-- The outbound texts of the source, one constructor per literal text (all
of them sit in code unreachable behind the line-93 `NameError`, so no run
ever sends one). -/
inductive OutMsg where
  | dataCapturePrompt
  | clarificationRequest
  | catalogNotFound
  | approvalAck
  | quoteMessage (subtotal freight discount_pct discount_amount total : TaggedNum)
  | quoteGenFailed
deriving DecidableEq, Repr

/-- One `Message` row. -/
structure MessageRec where
  id : Nat
  provider_message_id : String
  conversation_id : Option Nat
  direction : MessageDirection
  content : Option OutMsg
deriving DecidableEq, Repr

/-- One `Contact` row (tenant-scoped phone). -/
structure ContactRec where
  id : Nat
  phone : String
deriving DecidableEq, Repr

/-- One `Conversation` row. -/
structure ConversationRec where
  id : Nat
  contact_id : Nat
  state : ConversationState
deriving DecidableEq, Repr

/-- One `Quote` row (`status_sent` is `status == QuoteStatus.SENT`). -/
structure QuoteRec where
  id : Nat
  conversation_id : Nat
  draft : QuoteDraft
  status_sent : Bool
deriving DecidableEq, Repr

/-- One `Approval` row (always created PENDING by the processor). -/
structure ApprovalRec where
  quote_id : Nat
  reason : List ApprovalReason
deriving DecidableEq, Repr

/-- The mutable rows of one tenant's database, plus a fresh-id counter. -/
structure Store where
  messages : List MessageRec
  contacts : List ContactRec
  conversations : List ConversationRec
  quotes : List QuoteRec
  approvals : List ApprovalRec
  next_id : Nat
deriving DecidableEq, Repr

/-- The read-only context of a run: the outcome of the tenant lookup at
lines 84-90.  (The tables the unreachable remainder of the handler would
read are no part of any reachable behavior.) -/
structure Env where
  tenant_exists : Bool
deriving DecidableEq, Repr

/-- One queued job (`tenant_id` and `channel_id` are folded into `Env`). -/
structure Job where
  provider_message_id : String
  contact_phone : String
  message_text : String
deriving DecidableEq, Repr

/-- What the messaging gateway does with the run's (single) send attempt:
returns a provider message id, returns `None` (HTTP success without an id),
or raises. -/
inductive SendOutcome where
  | ok (provider_msg_id : String)
  | noId
  | raised
deriving DecidableEq, Repr

/-- The observable outcome of one run: the committed store, the texts that
physically reached the gateway, and whether the job raised. -/
structure RunResult where
  store : Store
  sent : List OutMsg
  raised : Bool
deriving DecidableEq, Repr

/-- Query `db.query(Message).filter_by(provider_message_id=...).first()`. -/
def findMessage (s : Store) (pid : String) : Option MessageRec :=
  s.messages.find? (fun m => m.provider_message_id == pid)

/-- Function `process_inbound_event` from `handlers.py`, reachable behavior:
the absent-message skip (lines 67-74), the already-stamped skip
(lines 76-82), the missing-tenant `ValueError` (lines 86-90), and then the
`NameError` raised at line 93 because `is_subscription_active` is never
imported into the module, which the outer `except Exception`
(lines 539-546) turns into rollback-and-re-raise.  No run mutates the store
or sends anything. -/
def process_inbound_event (env : Env) (job : Job) (_send : SendOutcome)
    (_aiDecoded : Option Json) (s : Store) : RunResult :=
  match findMessage s job.provider_message_id with
  | none => ⟨s, [], false⟩
  | some msg =>
    if msg.conversation_id.isSome then ⟨s, [], false⟩
    else if !env.tenant_exists then ⟨s, [], true⟩
    else ⟨s, [], true⟩

/-! ### Fixtures for the processor claims -/

/-- A run context whose tenant exists. -/
def c2_env : Env := ⟨true⟩

/-- One unprocessed inbound message, its contact, and a conversation in
`CAPTURE_MIN` (pre-existing data; the current code can advance nothing). -/
def c2_store : Store :=
  ⟨[⟨1, "wamid1", none, .INBOUND, none⟩], [⟨2, "+5511999999999"⟩],
    [⟨3, 2, .CAPTURE_MIN⟩], [], [], 4⟩

/-- A job whose text would parse completely (location, payment, delivery
day, one item line). -/
def c2_job : Job :=
  ⟨"wamid1", "+5511999999999", "BAIRRO: CENTRO\nPIX\nHOJE\n- CIMENTO: 10 SACOS"⟩

/-- An empty store: the job message was never persisted by the webhook. -/
def c2_absent_store : Store := ⟨[], [], [], [], [], 0⟩

/-- A store whose message is already stamped with a conversation id. -/
def c2_stamped_store : Store :=
  ⟨[⟨1, "wamid1", some 3, .INBOUND, none⟩], [], [], [], [], 2⟩

/-- Incomplete-parse fixture: location, payment and delivery present but no
item line. -/
def c9_job : Job := ⟨"wamid1", "+5511999999999", "BAIRRO: CENTRO\nPIX\nHOJE"⟩

/-! ## Theorems

All definitions above are the embedding; everything below proves the
claims against it. -/

/-- C3: for every (state, event) pair in the transition table,
`transition` returns exactly the table's next state; for every pair absent
from the table it fails with a `StateMachineError` identifying the attempted
event and the set of valid events from the current state, and it never
returns any state (in particular not the same state) on an invalid pair. -/
theorem c3_transition_matches_table :
    ∀ (s : ConversationState) (e : Event),
      (∀ t, ((s, e), t) ∈ VALID_TRANSITIONS → transition s e = .ok t) ∧
      ((∀ t, ((s, e), t) ∉ VALID_TRANSITIONS) →
        transition s e = .error ⟨e, valid_events_from s⟩ ∧
          ∀ t, transition s e ≠ .ok t) := by
  decide

/-- Witness for C3: a concrete pair in the table and a concrete pair absent
from it, with the hypotheses discharged by `decide`. -/
theorem c3_transition_matches_table_witness :
    transition .INBOUND .first_message_received = .ok .CAPTURE_MIN ∧
      transition .WON .user_replied
        = .error ⟨.user_replied, valid_events_from .WON⟩ :=
  ⟨(c3_transition_matches_table .INBOUND .first_message_received).1
      .CAPTURE_MIN (by decide),
    ((c3_transition_matches_table .WON .user_replied).2 (by decide)).1⟩

/-- The loop result is the percentage of the first matching discount. -/
theorem bestMatchPct_eq_firstMatching (quantity : ℚ) :
    ∀ l : List VolumeDiscount,
      bestMatchPct l quantity
        = (match firstMatching quantity l with
            | some d => d.discount_pct
            | none => 0)
  | [] => rfl
  | d :: rest => by
    by_cases h : d.min_quantity ≤ quantity
    · simp [bestMatchPct, firstMatching, h]
    · simp [bestMatchPct, firstMatching, h, bestMatchPct_eq_firstMatching quantity rest]

/-- If every discount's minimum is above the quantity, no discount matches. -/
theorem firstMatching_eq_none (quantity : ℚ) :
    ∀ l : List VolumeDiscount, (∀ d ∈ l, quantity < d.min_quantity) →
      firstMatching quantity l = none
  | [] => fun _ => rfl
  | d :: rest => fun h => by
    have hd : ¬ d.min_quantity ≤ quantity := not_le.mpr (h d (by simp))
    simp only [firstMatching, if_neg hd]
    exact firstMatching_eq_none quantity rest fun x hx => h x (by simp [hx])

/-- C6 (counterexample): with an item-specific discount of 0% at minimum
quantity 5 and a global discount of 10% at minimum quantity 5, quantity 5 and
base price 100, the source falls through to the global discount (because it
tests `best_discount_pct == 0`, not whether an item-specific discount
matched) and returns unit price 90, while the claim's selection rule keeps
the matched item-specific 0% discount and returns unit price 100. -/
theorem c6_counterexample :
    calculate_item_price_core 100 5 [⟨5, 0⟩] [⟨5, 1/10⟩] = (90, 450) ∧
      price_item_claim_spec 100 5 [⟨5, 0⟩] [⟨5, 1/10⟩] = (100, 500) ∧
      calculate_item_price_core 100 5 [⟨5, 0⟩] [⟨5, 1/10⟩]
        ≠ price_item_claim_spec 100 5 [⟨5, 0⟩] [⟨5, 1/10⟩] := by
  refine ⟨?_, ?_, ?_⟩ <;>
    norm_num [calculate_item_price_core, selectedPct, unitPriceFrom, bestMatchPct,
      price_item_claim_spec, firstMatching]

/-- C6 (amended): `price_item` returns the undiscounted base price for every
quantity below every discount's minimum; the first matching item-specific
discount with a NONZERO percentage is applied and the global list is then
never consulted (the result does not depend on it); when no item-specific
discount matches, or the matched one has percentage 0, the computation
proceeds exactly as if there were no item-specific discounts; a matching
global discount with positive percentage is then applied; in every applied
case `unit_price = base_price * (1 - discount_pct)` and
`line_total = unit_price * quantity`. -/
theorem c6_amended_discount_selection :
    ∀ (base quantity : ℚ) (iDs gDs gDs' : List VolumeDiscount),
      ((∀ d ∈ iDs ++ gDs, quantity < d.min_quantity) →
          calculate_item_price_core base quantity iDs gDs = (base, base * quantity)) ∧
      (∀ d, firstMatching quantity iDs = some d →
          d.discount_pct ≠ 0 →
          calculate_item_price_core base quantity iDs gDs
              = calculate_item_price_core base quantity iDs gDs' ∧
            (0 < d.discount_pct →
              calculate_item_price_core base quantity iDs gDs
                = (base * (1 - d.discount_pct),
                    base * (1 - d.discount_pct) * quantity))) ∧
      ((firstMatching quantity iDs = none ∨
          (∃ d, firstMatching quantity iDs = some d ∧ d.discount_pct = 0)) →
          calculate_item_price_core base quantity iDs gDs
            = calculate_item_price_core base quantity [] gDs) ∧
      (∀ g, firstMatching quantity gDs = some g →
          0 < g.discount_pct →
          calculate_item_price_core base quantity [] gDs
            = (base * (1 - g.discount_pct), base * (1 - g.discount_pct) * quantity)) := by
  intro base quantity iDs gDs gDs'
  refine ⟨?_, ?_, ?_, ?_⟩
  · intro h
    have h1 : firstMatching quantity iDs = none :=
      firstMatching_eq_none quantity iDs fun d hd => h d (List.mem_append_left _ hd)
    have h2 : firstMatching quantity gDs = none :=
      firstMatching_eq_none quantity gDs fun d hd => h d (List.mem_append_right _ hd)
    simp [calculate_item_price_core, selectedPct, unitPriceFrom,
      bestMatchPct_eq_firstMatching, h1, h2]
  · intro d hd hne
    have hb : bestMatchPct iDs quantity = d.discount_pct := by
      rw [bestMatchPct_eq_firstMatching, hd]
    constructor
    · simp [calculate_item_price_core, selectedPct, hb, hne]
    · intro hpos
      simp only [calculate_item_price_core, selectedPct, hb, if_neg hne,
        unitPriceFrom, if_pos hpos]
      exact Prod.ext (by ring) (by ring)
  · intro h
    have hb : bestMatchPct iDs quantity = 0 := by
      rcases h with h | ⟨d, hd, hz⟩
      · rw [bestMatchPct_eq_firstMatching, h]
      · rw [bestMatchPct_eq_firstMatching, hd]
        exact hz
    simp [calculate_item_price_core, selectedPct, hb, bestMatchPct]
  · intro g hg hpos
    have hb : bestMatchPct gDs quantity = g.discount_pct := by
      rw [bestMatchPct_eq_firstMatching, hg]
    have hsel : selectedPct quantity [] gDs = g.discount_pct := by
      simp [selectedPct, bestMatchPct, hb]
    simp only [calculate_item_price_core, hsel, unitPriceFrom, if_pos hpos]
    exact Prod.ext (by ring) (by ring)

/-- Witness for C6 (amended): no discounts at all gives the undiscounted
price (45 × 10 = 450), and the spec's worked example - a 10% volume discount
at minimum quantity 20 on a 45.00 item, quantity 20 - gives unit price 40.50
and line total 810.00. -/
theorem c6_amended_discount_selection_witness :
    calculate_item_price_core 45 10 [] [] = (45, 450) ∧
      calculate_item_price_core 45 20 [⟨20, 1/10⟩] [] = (81/2, 810) := by
  constructor
  · have h := (c6_amended_discount_selection 45 10 [] [] []).1 (by simp)
    norm_num at h
    exact h
  · have h := ((c6_amended_discount_selection 45 20 [⟨20, 1/10⟩] [] []).2.1
      ⟨20, 1/10⟩ (by norm_num [firstMatching]) (by norm_num)).2 (by norm_num)
    norm_num at h
    exact h

/-- Function `calculate_item_price` always returns `total = unit * quantity`. -/
theorem calculate_item_price_total (db : PricingDb) (i : Nat) (q u t : ℚ)
    (h : calculate_item_price db i q = .ok (u, t)) : t = u * q := by
  unfold calculate_item_price at h
  cases hf : db.tenantItems.find? (fun x => x.item_id == i && x.is_active) with
  | none => rw [hf] at h; cases h
  | some ti =>
    rw [hf] at h
    have h2 : calculate_item_price_core ti.price_base q
        (item_discounts_for db i) (global_discounts_for db) = (u, t) := by
      injection h
    unfold calculate_item_price_core at h2
    obtain ⟨h3, h4⟩ := Prod.mk.injEq .. ▸ h2
    rw [← h4, ← h3]

/-- Every entry the items loop emits is float-tagged, satisfies
`total = unit_price * quantity`, and the subtotal is the exact sum of the
entries' totals. -/
theorem quoteItemsLoop_spec (db : PricingDb) :
    ∀ (items : List (Nat × ℚ)) (outs : List QuoteItemOut) (sub : ℚ),
      quoteItemsLoop db items = .ok (outs, sub) →
      sub = (outs.map (fun it => it.total.val)).sum ∧
      ∀ it ∈ outs,
        it.quantity.rep = .binaryFloat ∧ it.unit_price.rep = .binaryFloat ∧
        it.total.rep = .binaryFloat ∧
        it.total.val = it.unit_price.val * it.quantity.val := by
  intro items
  induction items with
  | nil =>
    intro outs sub h
    simp only [quoteItemsLoop] at h
    injection h with h
    obtain ⟨h1, h2⟩ := Prod.mk.injEq .. ▸ h
    subst h1; subst h2
    simp
  | cons hd tl ih =>
    intro outs sub h
    obtain ⟨iid, qty⟩ := hd
    unfold quoteItemsLoop at h
    cases hcp : calculate_item_price db iid qty with
    | error e => rw [hcp] at h; cases h
    | ok p =>
      rw [hcp] at h
      obtain ⟨unit, tot⟩ := p
      cases hrec : quoteItemsLoop db tl with
      | error e => rw [hrec] at h; cases h
      | ok pr =>
        rw [hrec] at h
        obtain ⟨outs', sub'⟩ := pr
        injection h with h
        obtain ⟨h1, h2⟩ := Prod.mk.injEq .. ▸ h
        obtain ⟨hsum, hall⟩ := ih outs' sub' (by rw [hrec])
        subst h1; subst h2
        constructor
        · simp [hsum, pyFloat]
        · intro it hit
          rcases List.mem_cons.mp hit with hit | hit
          · subst hit
            refine ⟨rfl, rfl, rfl, ?_⟩
            exact calculate_item_price_total db iid qty unit tot (by rw [hcp])
          · exact hall it hit

/-- C8: `calculate_quote_totals` applies the single PIX discount percentage
to the subtotal exactly when the payment method equals "PIX"
case-insensitively, with `discount_amount = subtotal * discount_pct` and
`total = subtotal - discount_amount`. -/
theorem c8_pix_discount :
    ∀ (db : PricingDb) (rules : PricingRule) (items : List (Nat × ℚ))
      (payment_method : String) (r : QuoteTotals),
      db.pricingRule = some rules →
      calculate_quote_totals db items payment_method = .ok r →
      r.discount_pct.val
          = (if pyUpper payment_method = "PIX" then rules.pix_discount_pct else 0) ∧
        r.discount_amount.val = r.subtotal.val * r.discount_pct.val ∧
        r.total.val = r.subtotal.val - r.discount_amount.val := by
  intro db rules items pm r hrule hok
  unfold calculate_quote_totals at hok
  rw [hrule] at hok
  cases hloop : quoteItemsLoop db items with
  | error e => rw [hloop] at hok; cases hok
  | ok p =>
    rw [hloop] at hok
    obtain ⟨outs, subtotal⟩ := p
    injection hok with hok
    subst hok
    exact ⟨rfl, rfl, rfl⟩

/-- Evaluation of the worked example: base price 45.00, quantity 10, payment
"PIX", PIX discount 5%. -/
theorem c8_example_eval :
    calculate_quote_totals c8_example_db [(1, 10)] "PIX" = .ok c8_example_result := by
  have hitem : calculate_item_price c8_example_db 1 10 = .ok (45, 450) := by
    norm_num [calculate_item_price, c8_example_db, item_discounts_for, global_discounts_for,
      sortByMinDesc, calculate_item_price_core, selectedPct, bestMatchPct, unitPriceFrom,
      List.find?]
  have hloop : quoteItemsLoop c8_example_db [(1, 10)] =
      .ok ([⟨1, pyFloat 10, pyFloat 45, pyFloat 450⟩], 450) := by
    simp [quoteItemsLoop, hitem]
  have hpm : pyUpper "PIX" = "PIX" := rfl
  have hrule : c8_example_db.pricingRule = some ⟨1/20, 3/10, none, none⟩ := rfl
  simp only [calculate_quote_totals, hrule, hloop, hpm, if_pos rfl]
  simp only [c8_example_result, Except.ok.injEq, QuoteTotals.mk.injEq, pyFloat,
    TaggedNum.mk.injEq]
  norm_num

/-- Witness for C8: the spec's worked example - tenant PIX discount 5%, one
item with base price 45.00, quantity 10, payment "PIX" - gives subtotal
450.00, discount 22.50 and total 427.50, and the general relations of
`c8_pix_discount` hold there. -/
theorem c8_pix_discount_witness :
    calculate_quote_totals c8_example_db [(1, 10)] "PIX" = .ok c8_example_result ∧
      (c8_example_result.discount_pct.val
          = (if pyUpper "PIX" = "PIX" then (1/20 : ℚ) else 0) ∧
        c8_example_result.discount_amount.val
          = c8_example_result.subtotal.val * c8_example_result.discount_pct.val ∧
        c8_example_result.total.val
          = c8_example_result.subtotal.val - c8_example_result.discount_amount.val) ∧
      c8_example_result.subtotal.val = 450 ∧
      c8_example_result.discount_amount.val = 45/2 ∧
      c8_example_result.total.val = 855/2 :=
  ⟨c8_example_eval,
    c8_pix_discount c8_example_db ⟨1/20, 3/10, none, none⟩ [(1, 10)] "PIX"
      c8_example_result rfl c8_example_eval,
    rfl, rfl, rfl⟩

/-- C5 (counterexample): on the worked example the returned result of
`calculate_quote_totals` carries every monetary value as a binary `float`
(`"subtotal": float(subtotal)` and friends, lines 154-157 and 177-181 of
`pricing.py`), so the claim that no monetary value of the returned result is
ever represented in binary floating point fails. -/
theorem c5_counterexample :
    ¬ (∀ r, calculate_quote_totals c8_example_db [(1, 10)] "PIX" = .ok r →
        allMonetaryExact r) := by
  intro h
  have h1 := (h c8_example_result c8_example_eval).1
  simp [c8_example_result, pyFloat] at h1

/-- C5 (amended): all intermediate pricing arithmetic is exact - the subtotal
is the exact sum of the exact per-item totals, and the discount and total
satisfy their defining equations exactly - but every monetary value of the
RETURNED result (per-item prices, subtotal, discount amount, total, margin)
is converted to binary floating point at the return boundary. -/
theorem c5_amended_exact_compute_float_boundary :
    ∀ (db : PricingDb) (items : List (Nat × ℚ)) (pm : String) (r : QuoteTotals),
      calculate_quote_totals db items pm = .ok r →
      (r.subtotal.rep = .binaryFloat ∧ r.discount_pct.rep = .binaryFloat ∧
        r.discount_amount.rep = .binaryFloat ∧ r.total.rep = .binaryFloat ∧
        r.margin_pct.rep = .binaryFloat ∧
        ∀ it ∈ r.items, it.quantity.rep = .binaryFloat ∧
          it.unit_price.rep = .binaryFloat ∧ it.total.rep = .binaryFloat) ∧
      r.subtotal.val = (r.items.map (fun it => it.total.val)).sum ∧
      (∀ it ∈ r.items, it.total.val = it.unit_price.val * it.quantity.val) ∧
      r.discount_amount.val = r.subtotal.val * r.discount_pct.val ∧
      r.total.val = r.subtotal.val - r.discount_amount.val := by
  intro db items pm r hok
  unfold calculate_quote_totals at hok
  cases hrule : db.pricingRule with
  | none => rw [hrule] at hok; cases hok
  | some rules =>
    rw [hrule] at hok
    cases hloop : quoteItemsLoop db items with
    | error e => rw [hloop] at hok; cases hok
    | ok p =>
      rw [hloop] at hok
      obtain ⟨outs, subtotal⟩ := p
      injection hok with hok
      subst hok
      obtain ⟨hsum, hall⟩ := quoteItemsLoop_spec db items outs subtotal hloop
      refine ⟨⟨rfl, rfl, rfl, rfl, rfl, ?_⟩, hsum, ?_, rfl, rfl⟩
      · intro it hit
        obtain ⟨a, b, c, _⟩ := hall it hit
        exact ⟨a, b, c⟩
      · intro it hit
        exact (hall it hit).2.2.2

/-- Witness for C5 (amended): instantiated on the worked example. -/
theorem c5_amended_witness :
    c8_example_result.subtotal.rep = .binaryFloat ∧
      c8_example_result.total.rep = .binaryFloat ∧
      c8_example_result.subtotal.val
        = (c8_example_result.items.map (fun it => it.total.val)).sum ∧
      c8_example_result.total.val
        = c8_example_result.subtotal.val - c8_example_result.discount_amount.val := by
  obtain ⟨⟨h1, _, _, h4, _, _⟩, h6, _, _, h9⟩ :=
    c5_amended_exact_compute_float_boundary c8_example_db [(1, 10)] "PIX"
      c8_example_result c8_example_eval
  exact ⟨h1, h4, h6, h9⟩

/-- C7: freight resolution prefers the exact neighborhood match; only when it
fails and the input contains a digit is the normalized input tested against
the CEP-range rules (first matching range wins, lexicographically on digit
strings), and `FreightError` is raised when nothing matches.  Concretely, the
range "01310-000".."01310-999" contains "01310-100" and rejects "01320-100",
and a rule keyed by the very same string as the query wins over a range rule
that also contains it. -/
theorem c7_freight_resolution :
    (∀ (rules : List FreightRule) (loc : String) (w : Option ℚ),
      (∀ r, findBairroRule rules loc = some r →
        calculate_freight rules loc w = .ok (freight_cost r w)) ∧
      (findBairroRule rules loc = none → hasDigit loc = true →
        calculate_freight rules loc w
          = (match findCepRule rules (normalize_cep loc) with
              | some r => .ok (freight_cost r w)
              | none => .error (.noRule loc))) ∧
      (findBairroRule rules loc = none → hasDigit loc = false →
        calculate_freight rules loc w = .error (.noRule loc))) ∧
    cep_in_range "01310-100" "01310-000" "01310-999" = true ∧
    cep_in_range "01320-100" "01310-000" "01310-999" = false ∧
    calculate_freight [c7_range_rule] "01310-100" none = .ok 20 ∧
    calculate_freight [c7_range_rule] "01320-100" none
      = .error (.noRule "01320-100") ∧
    calculate_freight [c7_bairro_rule, c7_range_rule] "01310-100" none = .ok 10 := by
  refine ⟨?_, by decide, by decide, by decide, by decide, by decide⟩
  intro rules loc w
  refine ⟨?_, ?_, ?_⟩
  · intro r hr
    simp only [calculate_freight, hr]
  · intro hb hd
    simp only [calculate_freight, hb, hd, if_pos rfl]
    cases findCepRule rules (normalize_cep loc) <;> rfl
  · intro hb hd
    simp only [calculate_freight, hb, hd]
    rfl

/-- Witness for C7: the universal clauses instantiated on the example rules -
the bairro clause at the two-rule list, the range clause at the range-only
list, and the nothing-matches clause at the empty rule list. -/
theorem c7_freight_resolution_witness :
    calculate_freight [c7_bairro_rule, c7_range_rule] "01310-100" none
        = .ok (freight_cost c7_bairro_rule none) ∧
      calculate_freight [c7_range_rule] "01310-100" none
        = (match findCepRule [c7_range_rule] (normalize_cep "01310-100") with
            | some r => .ok (freight_cost r none)
            | none => .error (.noRule "01310-100")) ∧
      calculate_freight [] "Centro" none = .error (.noRule "Centro") :=
  ⟨(c7_freight_resolution.1 [c7_bairro_rule, c7_range_rule] "01310-100" none).1
      c7_bairro_rule (by decide),
    (c7_freight_resolution.1 [c7_range_rule] "01310-100" none).2.1
      (by decide) (by decide),
    (c7_freight_resolution.1 [] "Centro" none).2.2 (by decide) (by decide)⟩

/-- C4 (counterexample): with no `PricingRule` configured,
`calculate_quote_totals` raises (`"Pricing rules not found"`, lines 134-135
of `pricing.py`), `generate_quote` re-raises `QuoteGenerationError`, and no
quote with forced approval is produced - the quote flow fails instead of
forcing approval. -/
theorem c4_counterexample :
    generate_quote c4_no_rule_db [] [(1, 10)] "Centro" "PIX"
        = .error (.pricingFailed .pricingRulesNotFound) ∧
      ¬ c4_claim_at c4_no_rule_db [] [(1, 10)] "Centro" "PIX" := by
  refine ⟨by decide, ?_⟩
  rintro ⟨out, hout, -⟩
  rw [show generate_quote c4_no_rule_db [] [(1, 10)] "Centro" "PIX"
      = .error (.pricingFailed .pricingRulesNotFound) from by decide] at hout
  exact Except.noConfusion hout

/-- C4 (amended): a missing `PricingRule` (and any `PricingError`, including
an unpriced item) makes `generate_quote` fail with `QuoteGenerationError`
rather than forcing approval; the standalone approval check
`check_approval_required` does treat the missing rule as a forced-approval
condition, but `generate_quote` never reaches it in that case. -/
theorem c4_amended_missing_rule_fails :
    (∀ (pdb : PricingDb) (frules : List FreightRule) (items : List (Nat × ℚ))
        (cep pm : String) (e : PricingError),
      calculate_quote_totals pdb items pm = .error e →
      generate_quote pdb frules items cep pm = .error (.pricingFailed e)) ∧
    (∀ (tis : List TenantItem) (vds : List VolumeDiscountRow)
        (items : List (Nat × ℚ)) (pm : String),
      calculate_quote_totals ⟨tis, vds, none⟩ items pm
        = .error .pricingRulesNotFound) ∧
    (∀ (total margin : ℚ) (sk : List String),
      check_approval_required none total margin sk = (true, [.pricingRulesNotFound])) := by
  refine ⟨?_, ?_, ?_⟩
  · intro pdb frules items cep pm e h
    simp only [generate_quote, h]
  · intro tis vds items pm
    rfl
  · intro total margin sk
    rfl

/-- Witness for C4 (amended): instantiated on the no-rule catalog. -/
theorem c4_amended_missing_rule_fails_witness :
    generate_quote c4_no_rule_db [] [(1, 10)] "Centro" "PIX"
        = .error (.pricingFailed .pricingRulesNotFound) ∧
      check_approval_required none 450 (3/10) [] = (true, [.pricingRulesNotFound]) :=
  ⟨c4_amended_missing_rule_fails.1 c4_no_rule_db [] [(1, 10)] "Centro" "PIX"
      .pricingRulesNotFound (c4_amended_missing_rule_fails.2.1 [⟨1, 45, true⟩] [] [(1, 10)] "PIX"),
    c4_amended_missing_rule_fails.2.2 450 (3/10) []⟩

/-- The items loop never reads the pricing-rule row. -/
theorem quoteItemsLoop_thresholds (pdb : PricingDb) (t m : Option ℚ) :
    ∀ items, quoteItemsLoop (setThresholds pdb t m) items = quoteItemsLoop pdb items
  | [] => rfl
  | (iid, qty) :: rest => by
    have h : calculate_item_price (setThresholds pdb t m) iid qty
        = calculate_item_price pdb iid qty := rfl
    unfold quoteItemsLoop
    rw [h, quoteItemsLoop_thresholds pdb t m rest]

/-- The pricing totals never read the threshold columns. -/
theorem calculate_quote_totals_thresholds (pdb : PricingDb) (t m : Option ℚ)
    (items : List (Nat × ℚ)) (pm : String) :
    calculate_quote_totals (setThresholds pdb t m) items pm
      = calculate_quote_totals pdb items pm := by
  unfold calculate_quote_totals
  cases hrule : pdb.pricingRule with
  | none =>
    have h2 : (setThresholds pdb t m).pricingRule = none := by
      simp [setThresholds, hrule]
    simp only [h2, hrule, quoteItemsLoop_thresholds]
  | some rules =>
    have h2 : (setThresholds pdb t m).pricingRule
        = some ⟨rules.pix_discount_pct, rules.margin_min_pct, t, m⟩ := by
      simp [setThresholds, hrule]
    simp only [h2, hrule, quoteItemsLoop_thresholds]

/-- C10: when freight resolution fails during quote generation, the quote is
still produced with freight 0 and its total equal to the pricing total alone,
approval is forced with the freight-failure reason, and the total- and
margin-threshold checks are skipped entirely: the outcome is identical for
every configuration of the two threshold columns. -/
theorem c10_freight_failure_forces_approval :
    ∀ (pdb : PricingDb) (frules : List FreightRule) (items : List (Nat × ℚ))
      (cep pm : String) (pricing : QuoteTotals) (e : FreightError),
      calculate_quote_totals pdb items pm = .ok pricing →
      calculate_freight frules cep none = .error e →
      generate_quote pdb frules items cep pm
          = .ok ({ subtotal := pricing.subtotal.val, freight := 0,
                   discount_pct := pricing.discount_pct.val,
                   total := pricing.total.val + 0,
                   margin_pct := pricing.margin_pct.val, items := pricing.items,
                   payload_freight := pyFloat 0 },
                 true, some ⟨[.freightFailed e]⟩) ∧
        ∀ t1 m1 t2 m2 : Option ℚ,
          generate_quote (setThresholds pdb t1 m1) frules items cep pm
            = generate_quote (setThresholds pdb t2 m2) frules items cep pm := by
  intro pdb frules items cep pm pricing e hpricing hfreight
  constructor
  · simp [generate_quote, hpricing, hfreight]
  · intro t1 m1 t2 m2
    simp only [generate_quote, calculate_quote_totals_thresholds, hpricing, hfreight]

/-- Witness for C10: the worked pricing example with no freight rules -
freight fails with `noRule`, the quote keeps total 427.50 (plus freight 0)
and carries a forced approval for the freight failure; the outcome is the
same with and without thresholds configured. -/
theorem c10_freight_failure_forces_approval_witness :
    generate_quote c8_example_db [] [(1, 10)] "Centro" "PIX"
        = .ok ({ subtotal := 450, freight := 0, discount_pct := 1/20,
                 total := 855/2 + 0, margin_pct := 3/10,
                 items := [⟨1, pyFloat 10, pyFloat 45, pyFloat 450⟩],
                 payload_freight := pyFloat 0 },
               true, some ⟨[.freightFailed (.noRule "Centro")]⟩) ∧
      generate_quote (setThresholds c8_example_db (some 100) (some (1/2))) []
          [(1, 10)] "Centro" "PIX"
        = generate_quote (setThresholds c8_example_db none none) [] [(1, 10)]
            "Centro" "PIX" :=
  ⟨(c10_freight_failure_forces_approval c8_example_db [] [(1, 10)] "Centro" "PIX"
      c8_example_result (.noRule "Centro") c8_example_eval (by decide)).1,
    (c10_freight_failure_forces_approval c8_example_db [] [(1, 10)] "Centro" "PIX"
      c8_example_result (.noRule "Centro") c8_example_eval (by decide)).2
      (some 100) (some (1/2)) none none⟩

/-- C9 (counterexample): in AI mode, a model response that decodes to a JSON
object missing almost every field - here only `cep_or_bairro` - is returned
as-is (the source checks only `isinstance(ai_data, dict)`, lines 183-186 of
`parsing.py`), so `parse` hands partial data to its caller instead of
returning "incomplete". -/
theorem c9_counterexample :
    parse_data_capture_message "tijolo por favor"
        (some (Json.obj [("cep_or_bairro", Json.str "01310-100")]))
      = (some (Json.obj [("cep_or_bairro", Json.str "01310-100")]), true) ∧
    ¬ parse_complete_claim (parse_data_capture_message "tijolo por favor"
        (some (Json.obj [("cep_or_bairro", Json.str "01310-100")]))).1 := by
  refine ⟨rfl, ?_⟩
  intro h
  obtain ⟨-, h2, -, -⟩ := h
  exact absurd h2 (by decide)

/-! ### Processor no-op lemmas (idempotency protocol) -/

/-- Step 1 of the idempotency protocol: a run whose message was never
persisted by the webhook is a no-op. -/
theorem process_noop_absent (env : Env) (job : Job) (send : SendOutcome)
    (ai : Option Json) (s : Store)
    (h : findMessage s job.provider_message_id = none) :
    process_inbound_event env job send ai s = ⟨s, [], false⟩ := by
  unfold process_inbound_event
  rw [h]

/-- Step 2 of the idempotency protocol: a run whose message already carries a
`conversation_id` is a no-op. -/
theorem process_noop_stamped (env : Env) (job : Job) (send : SendOutcome)
    (ai : Option Json) (s : Store) (m : MessageRec) (c : Nat)
    (h : findMessage s job.provider_message_id = some m)
    (hc : m.conversation_id = some c) :
    process_inbound_event env job send ai s = ⟨s, [], false⟩ := by
  unfold process_inbound_event
  rw [h]
  simp [hc]

/-! ### C1 -/

/-- C1 (code bug, evaluated at the failing input): the processor can never
perform any of the claim's three sends nor commit any state change -
universally, every run leaves the store untouched and sends nothing,
because every run past the idempotency checks and the tenant lookup raises
`NameError` at `handlers.py:93` (`is_subscription_active` is never imported
into the module) and is rolled back and re-raised; at the concrete failing
input (message present and unstamped, tenant present, conversation in
`CAPTURE_MIN`) the run raises for every gateway outcome. -/
theorem c1_code_bug_processor_never_sends :
    (∀ (env : Env) (job : Job) (send : SendOutcome) (ai : Option Json) (s : Store),
      (process_inbound_event env job send ai s).sent = [] ∧
        (process_inbound_event env job send ai s).store = s) ∧
      process_inbound_event c2_env c2_job (.ok "out1") none c2_store
        = ⟨c2_store, [], true⟩ ∧
      process_inbound_event c2_env c2_job .raised none c2_store
        = ⟨c2_store, [], true⟩ ∧
      process_inbound_event c2_env c2_job .noId none c2_store
        = ⟨c2_store, [], true⟩ := by
  refine ⟨?_, by decide, by decide, by decide⟩
  intro env job send ai s
  unfold process_inbound_event
  cases h : findMessage s job.provider_message_id with
  | none => exact ⟨rfl, rfl⟩
  | some m =>
    by_cases h1 : m.conversation_id.isSome <;> by_cases h2 : env.tenant_exists <;>
      simp [h1, h2]

/-! ### C2 -/

/-- C2 (code bug, evaluated at the failing input): the claim's two no-op
clauses do hold - a run whose message is absent and a run whose message is
already stamped change nothing and send nothing - but two invocations with
the same `provider_message_id` on an unprocessed message produce ZERO
conversation state advances and zero outbound sends, not exactly one: both
runs raise `NameError` at `handlers.py:93` before any processing, nothing
is committed, and the `conversation_id` stamp - the claimed commit point -
is never written (the message is still unstamped before and after). -/
theorem c2_code_bug_no_processing :
    process_inbound_event c2_env c2_job .noId none c2_absent_store
        = ⟨c2_absent_store, [], false⟩ ∧
      process_inbound_event c2_env c2_job .noId none c2_stamped_store
        = ⟨c2_stamped_store, [], false⟩ ∧
      process_inbound_event c2_env c2_job (.ok "out1") none c2_store
        = ⟨c2_store, [], true⟩ ∧
      process_inbound_event c2_env c2_job (.ok "out2") none
          (process_inbound_event c2_env c2_job (.ok "out1") none c2_store).store
        = ⟨c2_store, [], true⟩ ∧
      (findMessage c2_store "wamid1").map (fun m => m.conversation_id)
        = some none := by
  refine ⟨by decide, by decide, by decide, by decide, by decide⟩

/-! ### C9 -/

/-- A truthy optional string is a nonempty `some`. -/
theorem strOptTruthy_getD {o : Option String} (h : strOptTruthy o = true) :
    ((o.getD "").isEmpty) = false := by
  cases o with
  | none => cases h
  | some s => simpa [strOptTruthy] using h

/-- The dictionary `parse` builds from truthy extracted fields and a
nonempty items list satisfies the completeness contract. -/
theorem parse_complete_mkParsed (a b c : String) (items : List ParsedItem)
    (ha : a.isEmpty = false) (hb : b.isEmpty = false) (hc : c.isEmpty = false)
    (hi : items ≠ []) : parse_complete_claim (some (mkParsedJson a b c items)) := by
  refine ⟨?_, ?_, ?_, ?_⟩
  · show (!a.isEmpty) = true
    rw [ha]; rfl
  · show (!b.isEmpty) = true
    rw [hb]; rfl
  · show (!c.isEmpty) = true
    rw [hc]; rfl
  · cases items with
    | nil => exact absurd rfl hi
    | cons x l => exact rfl

/-- C9 (amended): in deterministic mode (no decoded AI response - covering
`use_ai=False`, provider failures and JSON decode failures), `parse` returns
"incomplete" rather than partial data unless location, payment method,
delivery day and at least one item were all extracted (in AI mode the
completeness gate is bypassed - see the counterexample).  The processor,
however, never reacts to an incomplete parse: every run that would reach the
parser raises `NameError` at `handlers.py:93` first, so the store - hence
the conversation state and the quotes - is unchanged and no clarification
request (nor anything else) is ever sent; the run re-raises for the queue to
retry. -/
theorem c9_amended_incomplete_parse :
    (∀ text : String,
      (parse_data_capture_message text none).2 = false ∧
        parse_complete_claim (parse_data_capture_message text none).1) ∧
    (∀ (env : Env) (job : Job) (send : SendOutcome) (ai : Option Json) (s : Store)
        (m : MessageRec),
      findMessage s job.provider_message_id = some m →
      m.conversation_id = none →
      env.tenant_exists = true →
      (process_inbound_event env job send ai s).store = s ∧
        (process_inbound_event env job send ai s).sent = [] ∧
        (process_inbound_event env job send ai s).raised = true) := by
  constructor
  · intro text
    simp only [parse_data_capture_message]
    split
    next h =>
      rw [Bool.and_eq_true, Bool.and_eq_true, Bool.and_eq_true] at h
      obtain ⟨⟨⟨h1, h2⟩, h3⟩, h4⟩ := h
      exact ⟨rfl, parse_complete_mkParsed _ _ _ _ (strOptTruthy_getD h1)
        (strOptTruthy_getD h2) (strOptTruthy_getD h3) (by simpa using h4)⟩
    next h => exact ⟨rfl, trivial⟩
  · intro env job send ai s m hfind hm ht
    refine ⟨?_, ?_, ?_⟩ <;>
      simp [process_inbound_event, hfind, hm, ht]

/-- Witness for C9 (amended): the spec's example text lacking any item line
parses as incomplete, and the processor's run on the `CAPTURE_MIN` fixture
changes nothing, sends nothing (no clarification) and raises. -/
theorem c9_amended_incomplete_parse_witness :
    (parse_data_capture_message "BAIRRO: CENTRO\nPIX\nHOJE" none).2 = false ∧
      parse_complete_claim
        (parse_data_capture_message "BAIRRO: CENTRO\nPIX\nHOJE" none).1 ∧
      (process_inbound_event c2_env c9_job (.ok "out9") none c2_store).store
        = c2_store ∧
      (process_inbound_event c2_env c9_job (.ok "out9") none c2_store).sent = [] ∧
      (process_inbound_event c2_env c9_job (.ok "out9") none c2_store).raised = true :=
  ⟨(c9_amended_incomplete_parse.1 "BAIRRO: CENTRO\nPIX\nHOJE").1,
    (c9_amended_incomplete_parse.1 "BAIRRO: CENTRO\nPIX\nHOJE").2,
    (c9_amended_incomplete_parse.2 c2_env c9_job (.ok "out9") none c2_store
      ⟨1, "wamid1", none, .INBOUND, none⟩ (by decide) rfl rfl).1,
    (c9_amended_incomplete_parse.2 c2_env c9_job (.ok "out9") none c2_store
      ⟨1, "wamid1", none, .INBOUND, none⟩ (by decide) rfl rfl).2.1,
    (c9_amended_incomplete_parse.2 c2_env c9_job (.ok "out9") none c2_store
      ⟨1, "wamid1", none, .INBOUND, none⟩ (by decide) rfl rfl).2.2⟩

end OrcaZap

